import Mathlib

/-!
Shallow embedding of the Hawaiian font catalog backend (font-scanner.js and the
express server file) and verification of the frozen claims about it.

Byte buffers are modelled as lists of naturals, fallible external operations
(network, rendering engine, database) as Except values supplied by oracles,
and the JavaScript try/catch/finally control flow as explicit matches.
-/

/-- The byte-level image comparison, from compareImages (font-scanner.js lines
192-207): when the buffer lengths differ it returns the absolute length
difference, otherwise it loops over the indices counting positions whose bytes
differ. -/
def compareImages (img1Buffer img2Buffer : List Nat) : Nat :=
  if img1Buffer.length ≠ img2Buffer.length then
    Int.natAbs ((img1Buffer.length : Int) - (img2Buffer.length : Int))
  else
    (List.range img1Buffer.length).foldl
      (fun differences i =>
        if img1Buffer.getD i 0 ≠ img2Buffer.getD i 0 then differences + 1
        else differences)
      0

/-- The lowercase macron vowels from the scanner configuration. -/
def lowercaseChars : List String := ["ā", "ē", "ī", "ō", "ū"]

/-- The uppercase macron vowels from the scanner configuration. -/
def uppercaseChars : List String := ["Ā", "Ē", "Ī", "Ō", "Ū"]

/-- The full diacritical character set tested per font
(testDiacriticalCharacters line 140). -/
def allCharacters : List String := lowercaseChars ++ uppercaseChars

/-- The summary record built by testDiacriticalCharacters (lines 172-188).
The JavaScript floating point percentage is modelled as a rational. -/
structure DiacriticalSupportSummary where
  individual : List (String × Bool)
  supportedCount : Nat
  totalCount : Nat
  allSupported : Bool
  percentageSupported : ℚ
deriving DecidableEq

/-- testDiacriticalCharacters (lines 138-190): the rendering probe measures a
width for each character (the page.evaluate calls); any fault inside the loop
is caught and converted to the all-zero summary.  The probe outcome is the
width function when the page evaluations succeed, or an error otherwise. -/
def testDiacriticalCharacters (charWidth : Except String (String → Nat)) :
    DiacriticalSupportSummary :=
  match charWidth with
  | .error _ =>
      { individual := []
        supportedCount := 0
        totalCount := 0
        allSupported := false
        percentageSupported := 0 }
  | .ok width =>
      let results := allCharacters.map (fun c => (c, decide (width c > 10)))
      let supportedCount := (results.filter (fun r => r.2)).length
      let totalCount := allCharacters.length
      { individual := results
        supportedCount := supportedCount
        totalCount := totalCount
        allSupported := supportedCount == totalCount
        percentageSupported := ((supportedCount : ℚ) / (totalCount : ℚ)) * 100 }

/-- The per-font analysis record (analyzeFontCharacters lines 117-132).
Fields absent from the JavaScript object on a given path are modelled as none;
the base64 phrase preview is modelled by its byte payload. -/
structure FontAnalysisResult where
  fontFamily : String
  okenVsApostropheDifference : Option Nat
  hasVisualDistinction : Option Bool
  diacriticalSupport : Option DiacriticalSupportSummary
  phrasePreview : Option (List Nat)
  autoApproved : Bool
  error : Option String
deriving DecidableEq

/-- Oracle describing what the headless rendering engine does for one page:
each fallible operation of analyzeFontCharacters either succeeds with its
value or raises an error message. -/
structure PageOracle where
  newPage : Except String Unit
  setContent : Except String Unit
  waitTimeout : Except String Unit
  okinaShot : Except String (List Nat)
  apostropheShot : Except String (List Nat)
  charWidth : Except String (String → Nat)
  phraseShot : Except String (List Nat)

/-- Events of one analyzeFontCharacters run, used to state the resource
lifecycle claim: the close event models the page.close() call in the finally
block (line 134). -/
inductive PageEvent where
  | newPage
  | setContent
  | waitTimeout
  | captureOkina
  | captureApostrophe
  | evalWidths
  | capturePhrase
  | close
deriving DecidableEq

/-- The success-path result object of analyzeFontCharacters (lines 117-124). -/
def successResult (pixelThreshold : Nat) (fontFamily : String)
    (okenScreenshot apostropheScreenshot : List Nat)
    (diacriticalTest : DiacriticalSupportSummary)
    (phraseScreenshot : List Nat) : FontAnalysisResult :=
  let pixelDifference := compareImages okenScreenshot apostropheScreenshot
  { fontFamily := fontFamily
    okenVsApostropheDifference := some pixelDifference
    hasVisualDistinction := some (decide (pixelDifference > pixelThreshold))
    diacriticalSupport := some diacriticalTest
    phrasePreview := some phraseScreenshot
    autoApproved := decide (pixelDifference > pixelThreshold) && diacriticalTest.allSupported
    error := none }

/-- The catch-branch result object of analyzeFontCharacters (lines 128-132):
only the family, the error message and autoApproved = false. -/
def errorResult (fontFamily msg : String) : FontAnalysisResult :=
  { fontFamily := fontFamily
    okenVsApostropheDifference := none
    hasVisualDistinction := none
    diacriticalSupport := none
    phrasePreview := none
    autoApproved := false
    error := some msg }

/-- The try-block body of analyzeFontCharacters (lines 69-124): runs the page
operations in program order, stopping at the first fault, and also reports the
list of page operations that were attempted. -/
def analyzeBody (pixelThreshold : Nat) (fontFamily : String) (o : PageOracle) :
    Except String FontAnalysisResult × List PageEvent :=
  match o.setContent with
  | .error m => (.error m, [.setContent])
  | .ok _ =>
    match o.waitTimeout with
    | .error m => (.error m, [.setContent, .waitTimeout])
    | .ok _ =>
      match o.okinaShot with
      | .error m => (.error m, [.setContent, .waitTimeout, .captureOkina])
      | .ok okenScreenshot =>
        match o.apostropheShot with
        | .error m =>
            (.error m, [.setContent, .waitTimeout, .captureOkina, .captureApostrophe])
        | .ok apostropheScreenshot =>
          let diacriticalTest := testDiacriticalCharacters o.charWidth
          match o.phraseShot with
          | .error m =>
              (.error m, [.setContent, .waitTimeout, .captureOkina,
                          .captureApostrophe, .evalWidths, .capturePhrase])
          | .ok phraseScreenshot =>
              (.ok (successResult pixelThreshold fontFamily okenScreenshot
                      apostropheScreenshot diacriticalTest phraseScreenshot),
               [.setContent, .waitTimeout, .captureOkina, .captureApostrophe,
                .evalWidths, .capturePhrase])

/-- The value analyzeFontCharacters returns once the page is open: the
try-block value if it succeeds, otherwise the catch-branch error record
(lines 126-132). -/
def analyzeOutcome (pixelThreshold : Nat) (fontFamily : String)
    (o : PageOracle) : FontAnalysisResult :=
  match (analyzeBody pixelThreshold fontFamily o).1 with
  | .ok r => r
  | .error msg => errorResult fontFamily msg

/-- analyzeFontCharacters (lines 66-136).  The newPage call sits before the
try block, so its failure propagates to the caller with no page opened; once
the page is open, try/catch turn every body fault into the error record and
the finally block closes the page on every path, giving the event trace
newPage, body events, close. -/
def analyzeFontCharacters (pixelThreshold : Nat) (fontFamily : String)
    (o : PageOracle) : Except String FontAnalysisResult × List PageEvent :=
  match o.newPage with
  | .error m => (.error m, [])
  | .ok _ =>
      (.ok (analyzeOutcome pixelThreshold fontFamily o),
       PageEvent.newPage :: (analyzeBody pixelThreshold fontFamily o).2
         ++ [PageEvent.close])

/-- A Google Fonts catalog entry (the fields used at lines 224-232). -/
structure FontDescriptor where
  family : String
  variants : List String
  subsets : List String
  version : String
  lastModified : String
  files : List (String × String)
  category : String
deriving DecidableEq

/-- One element of the scanFontBatch result list (lines 222-235): the analysis
record together with the copied Google Fonts metadata, the scan timestamp and
the batch label.  The JavaScript object spread is modelled as the analysis
field of this record. -/
structure ScanResult where
  analysis : FontAnalysisResult
  googleFontData : FontDescriptor
  scannedAt : String
  scanBatch : String
deriving DecidableEq

/-- The scanFontBatch loop (lines 215-241) over the already fetched fonts:
the i-th iteration analyzes the i-th font with the i-th fresh page; an
uncaught throw from analyzeFontCharacters (a newPage failure) aborts the
whole loop. -/
def scanFontBatchAux (pixelThreshold : Nat) (env : Nat → PageOracle)
    (now lbl : String) : List FontDescriptor → Nat → Except String (List ScanResult)
  | [], _ => .ok []
  | font :: fonts, i =>
      match (analyzeFontCharacters pixelThreshold font.family (env i)).1 with
      | .error m => .error m
      | .ok analysis =>
          match scanFontBatchAux pixelThreshold env now lbl fonts (i + 1) with
          | .error m => .error m
          | .ok rest =>
              .ok ({ analysis := analysis
                     googleFontData := font
                     scannedAt := now
                     scanBatch := lbl } :: rest)

/-- scanFontBatch (lines 209-247) applied to the fetched font list. -/
def scanFontBatch (pixelThreshold : Nat) (env : Nat → PageOracle)
    (now lbl : String) (fonts : List FontDescriptor) :
    Except String (List ScanResult) :=
  scanFontBatchAux pixelThreshold env now lbl fonts 0

/-- The result list a batch produces when every page opens (each font then
yields exactly one record, errored or not); used to characterize the loop. -/
def normalResults (pixelThreshold : Nat) (env : Nat → PageOracle)
    (now lbl : String) : List FontDescriptor → Nat → List ScanResult
  | [], _ => []
  | font :: fonts, i =>
      { analysis := analyzeOutcome pixelThreshold font.family (env i)
        googleFontData := font
        scannedAt := now
        scanBatch := lbl } :: normalResults pixelThreshold env now lbl fonts (i + 1)

/-- The offset/limit slicing of fetchGoogleFonts (lines 50-56): the offset
slice runs only when offset is positive, and the limit slice runs only when
limit is truthy, i.e. a number other than zero (null is modelled as none). -/
def fetchGoogleFonts (items : List FontDescriptor) (offset : Nat)
    (limit : Option Nat) : List FontDescriptor :=
  let fonts := if 0 < offset then items.drop offset else items
  match limit with
  | some l => if l ≠ 0 then fonts.take l else fonts
  | none => fonts

/-- A scan_batches row (see the insert at lines 593-597 and the updates at
lines 745-758 and 765-771 of the server file). -/
structure ScanBatch where
  id : Nat
  batchNumber : Nat
  scanType : String
  batchOffset : Nat
  batchLimit : Nat
  status : String
  startedAt : Nat
  completedAt : Option Nat
  fontsProcessed : Option Nat
  fontsApproved : Option Nat
  errorMessage : Option String
  processingNotes : Option String
deriving DecidableEq

/-- The arguments handed to the insert_scan_result database function
(lines 777-784): family, the copied Google Fonts metadata, the full scan
result and the batch tag. -/
structure FontRecord where
  fontFamily : String
  googleFontData : FontDescriptor
  scanResult : ScanResult
  batchInfo : String
deriving DecidableEq

/-- The database state the server mutates: the scan_batches table, the
per-font records written through insert_scan_result, and the next row id. -/
structure DBState where
  batches : List ScanBatch
  fontRecords : List FontRecord
  nextId : Nat
deriving DecidableEq

/-- Response of the POST /api/scan/start handler: either the 409 conflict
carrying the running scan id (lines 585-590) or the started message
(lines 605-611). -/
inductive StartScanOutcome where
  | conflict (runningScanId : Nat)
  | started (batchId : Nat) (batchNumber : Nat) (offset : Nat) (limit : Nat)
deriving DecidableEq

/-- COALESCE(MAX(batch_number), 0) over the scan_batches table (line 595). -/
def maxBatchNumber (batches : List ScanBatch) : Nat :=
  batches.foldl (fun acc b => max acc b.batchNumber) 0

/-- Modelled from the spec: the status a newly inserted scan batch carries.
The INSERT at lines 594-596 names no status column, so the value comes from
the database schema, which is not part of the sources; section 4.7 of the
specification says a new batch immediately transitions to running. -/
def defaultBatchStatus : String := "running"

/-- The POST /api/scan/start handler (lines 570-617): reject with the running
scan id when some batch has status running, otherwise insert a new batch row
with the next batch number and respond with its identifiers. -/
def startScan (st : DBState) (batchSize offset : Nat) (scanType : String)
    (now : Nat) : StartScanOutcome × DBState :=
  match st.batches.find? (fun b => b.status == "running") with
  | some b => (.conflict b.id, st)
  | none =>
      let batchNumber := maxBatchNumber st.batches + 1
      let newBatch : ScanBatch :=
        { id := st.nextId
          batchNumber := batchNumber
          scanType := scanType
          batchOffset := offset
          batchLimit := batchSize
          status := defaultBatchStatus
          startedAt := now
          completedAt := none
          fontsProcessed := none
          fontsApproved := none
          errorMessage := none
          processingNotes := none }
      (.started st.nextId batchNumber offset batchSize,
       { st with batches := st.batches ++ [newBatch], nextId := st.nextId + 1 })

/-- The record written for one scan result (insertScanResult, lines 775-791). -/
def mkFontRecord (batchId : Nat) (r : ScanResult) : FontRecord :=
  { fontFamily := r.analysis.fontFamily
    googleFontData := r.googleFontData
    scanResult := r
    batchInfo := "batch-" ++ toString batchId }

/-- The insertion loop of scanFontsAsync (lines 736-742): results whose error
field is absent are written and counted; approved ones are counted among
those.  Returns the written records in order with the processed and approved
counts. -/
def insertLoop (batchId : Nat) : List ScanResult → List FontRecord × Nat × Nat
  | [] => ([], 0, 0)
  | r :: rs =>
      if r.analysis.error.isNone then
        let rest := insertLoop batchId rs
        (mkFontRecord batchId r :: rest.1,
         rest.2.1 + 1,
         if r.analysis.autoApproved then rest.2.2 + 1 else rest.2.2)
      else
        insertLoop batchId rs

/-- The completed-status update of scanFontsAsync (lines 745-758). -/
def completeBatch (batchId now processed approved : Nat)
    (batches : List ScanBatch) : List ScanBatch :=
  batches.map fun b =>
    if b.id == batchId then
      { b with
        status := "completed"
        completedAt := some now
        fontsProcessed := some processed
        fontsApproved := some approved
        processingNotes := some ("Processed " ++ toString processed
          ++ " fonts, " ++ toString approved ++ " auto-approved") }
    else b

/-- The failed-status update of scanFontsAsync (lines 765-771). -/
def failBatch (batchId now : Nat) (msg : String)
    (batches : List ScanBatch) : List ScanBatch :=
  batches.map fun b =>
    if b.id == batchId then
      { b with
        status := "failed"
        completedAt := some now
        errorMessage := some msg }
    else b

/-- scanFontsAsync (lines 717-773): the runScan outcome is either the result
sequence or a run-level fault; on success the error-free results are written
and the batch row is completed with the counts, on a fault the batch row is
marked failed with the message. -/
def scanFontsAsync (st : DBState) (batchId now : Nat)
    (runOutcome : Except String (List ScanResult)) : DBState :=
  match runOutcome with
  | .error msg => { st with batches := failBatch batchId now msg st.batches }
  | .ok results =>
      let inserted := insertLoop batchId results
      { st with
        fontRecords := st.fontRecords ++ inserted.1
        batches := completeBatch batchId now inserted.2.1 inserted.2.2 st.batches }

/-- MAX(started_at) over incremental scan batches (lines 799-801). -/
def maxStartedAt (batches : List ScanBatch) : Option Nat :=
  (batches.filter (fun b => b.scanType == "incremental")).foldl
    (fun acc b =>
      match acc with
      | none => some b.startedAt
      | some t => some (max t b.startedAt))
    none

/-- Milliseconds per day, as in the daysSinceLastScan computation (line 805). -/
def msPerDay : Nat := 1000 * 60 * 60 * 24

/-- The days since the last incremental batch started (999 when none exists),
as computed at lines 804-806. -/
def daysSinceLastScan (now : Nat) (batches : List ScanBatch) : Nat :=
  match maxStartedAt batches with
  | some t => (now - t) / msPerDay
  | none => 999

/-- The scheduled scan callback (lines 798-832): when fourteen or more days
have passed it checks for a running batch.  The source then only logs: the
branch that would start an incremental batch is an unimplemented stub
("Implementation details would go here"), so no branch changes the state. -/
def cronCallback (now : Nat) (st : DBState) : DBState :=
  if 14 ≤ daysSinceLastScan now st.batches then
    match st.batches.find? (fun b => b.status == "running") with
    | some _ => st
    | none => st
  else st

/-! Concrete inputs used by the witness theorems. -/

/-- A width probe reporting a wide glyph for every tested character. -/
def wideGlyphs : String → Nat := fun _ => 20

/-- An all-success page oracle whose two glyph snapshots differ in length by
sixty bytes, so the pixel difference score is 60. -/
def okOracle : PageOracle :=
  { newPage := .ok ()
    setContent := .ok ()
    waitTimeout := .ok ()
    okinaShot := .ok (List.replicate 61 1)
    apostropheShot := .ok [1]
    charWidth := .ok wideGlyphs
    phraseShot := .ok [7, 7] }

/-- A page oracle whose page opens but whose content load faults. -/
def faultOracle : PageOracle :=
  { newPage := .ok ()
    setContent := .error "boom"
    waitTimeout := .ok ()
    okinaShot := .ok []
    apostropheShot := .ok []
    charWidth := .ok wideGlyphs
    phraseShot := .ok [] }

/-- A batch environment in which the first page faults after opening and all
later pages succeed. -/
def envW : Nat → PageOracle := fun i => if i = 0 then faultOracle else okOracle

/-- A sample catalog entry. -/
def fontA : FontDescriptor :=
  { family := "Alpha Sans"
    variants := ["regular"]
    subsets := ["latin"]
    version := "v1"
    lastModified := "2020-01-01"
    files := []
    category := "sans-serif" }

/-- A second sample catalog entry. -/
def fontB : FontDescriptor :=
  { family := "Beta Serif"
    variants := ["regular"]
    subsets := ["latin-ext"]
    version := "v2"
    lastModified := "2021-01-01"
    files := []
    category := "serif" }

/-- A scan batch row with status running. -/
def sampleRunningBatch : ScanBatch :=
  { id := 7
    batchNumber := 3
    scanType := "manual"
    batchOffset := 0
    batchLimit := 50
    status := "running"
    startedAt := 1000
    completedAt := none
    fontsProcessed := none
    fontsApproved := none
    errorMessage := none
    processingNotes := none }

/-- A database state holding one running batch. -/
def runningState : DBState :=
  { batches := [sampleRunningBatch], fontRecords := [], nextId := 8 }

/-- The running batch row number one updated by the async scan samples. -/
def batchOne : ScanBatch :=
  { id := 1
    batchNumber := 1
    scanType := "manual"
    batchOffset := 0
    batchLimit := 50
    status := "running"
    startedAt := 500
    completedAt := none
    fontsProcessed := none
    fontsApproved := none
    errorMessage := none
    processingNotes := none }

/-- A database state holding the single running batch number one. -/
def stOne : DBState := { batches := [batchOne], fontRecords := [], nextId := 2 }

/-- A successful scan result for the second sample font. -/
def okScanResult : ScanResult :=
  { analysis := analyzeOutcome 50 "Beta Serif" okOracle
    googleFontData := fontB
    scannedAt := "t"
    scanBatch := "0-50" }

/-- An errored scan result for the first sample font. -/
def errScanResult : ScanResult :=
  { analysis := errorResult "Alpha Sans" "boom"
    googleFontData := fontA
    scannedAt := "t"
    scanBatch := "0-50" }

/-! Helper lemmas. -/

theorem foldl_count_filter (p : Nat → Prop) [DecidablePred p]
    (l : List Nat) (acc : Nat) :
    l.foldl (fun d i => if p i then d + 1 else d) acc
      = acc + (l.filter (fun i => decide (p i))).length := by
  induction l generalizing acc with
  | nil => simp
  | cons x xs ih =>
      simp only [List.foldl_cons, List.filter_cons]
      by_cases hx : p x
      · rw [if_pos hx, if_pos (by simp [hx]), ih, List.length_cons]
        omega
      · rw [if_neg hx, if_neg (by simp [hx]), ih]

theorem length_filter_range (p : Nat → Prop) [DecidablePred p] (n : Nat) :
    ((List.range n).filter (fun i => decide (p i))).length
      = ((Finset.range n).filter p).card := by
  induction n with
  | zero => simp
  | succ n ih =>
      rw [List.range_succ, List.filter_append, List.length_append,
        Finset.range_succ, Finset.filter_insert]
      by_cases hp : p n
      · rw [if_pos hp, Finset.card_insert_of_not_mem (by simp)]
        simp [hp, ih]
      · rw [if_neg hp]
        simp [hp, ih]

theorem compareImages_eq_card (a b : List Nat) (h : a.length = b.length) :
    compareImages a b
      = ((Finset.range a.length).filter (fun i => a.getD i 0 ≠ b.getD i 0)).card := by
  unfold compareImages
  rw [if_neg (by omega), foldl_count_filter, length_filter_range]
  simp

theorem compareImages_eq_dist (a b : List Nat) (h : a.length ≠ b.length) :
    compareImages a b = Nat.dist a.length b.length := by
  unfold compareImages
  rw [if_pos h]
  simp [Nat.dist]
  omega

/-- Claim C1: for every pair of byte buffers, compareImages returns the
absolute length difference when the lengths differ, and the exact count of
positions holding different bytes when the lengths are equal; the result
lives in Nat, hence is always a non-negative integer. -/
theorem compareImages_spec (a b : List Nat) :
    (a.length ≠ b.length → compareImages a b = Nat.dist a.length b.length) ∧
    (a.length = b.length →
      compareImages a b
        = ((Finset.range a.length).filter (fun i => a.getD i 0 ≠ b.getD i 0)).card) :=
  ⟨compareImages_eq_dist a b, compareImages_eq_card a b⟩

/-- Witness for claim C1 at concrete buffers: an unequal-length pair and an
equal-length pair differing at exactly one position. -/
theorem compareImages_spec_witness :
    compareImages [0, 1] [5] = 1 ∧ compareImages [1, 2, 3] [1, 0, 3] = 1 :=
  ⟨((compareImages_spec [0, 1] [5]).1 (by decide)).trans (by decide),
   ((compareImages_spec [1, 2, 3] [1, 0, 3]).2 rfl).trans (by decide)⟩

/-- Claim C10: the difference score is symmetric in its two buffers, in both
the unequal-length branch and the equal-length byte-count branch. -/
theorem compareImages_comm (a b : List Nat) :
    compareImages a b = compareImages b a := by
  by_cases h : a.length = b.length
  · rw [compareImages_eq_card a b h, compareImages_eq_card b a h.symm, h]
    congr 1
    exact Finset.filter_congr fun i _ => by rw [ne_comm]
  · rw [compareImages_eq_dist a b h, compareImages_eq_dist b a (fun hb => h hb.symm)]
    exact Nat.dist_comm a.length b.length

/-- Claim C7 counterexample: the summary produced when the diacritical test
itself faults has supportedCount equal to totalCount (both zero) yet
allSupported is false, so the claimed equivalence fails on that summary. -/
theorem testDiacritical_fault_counterexample :
    ¬ ((testDiacriticalCharacters (.error "evaluate failed")).allSupported = true ↔
        (testDiacriticalCharacters (.error "evaluate failed")).supportedCount
          = (testDiacriticalCharacters (.error "evaluate failed")).totalCount) := by
  decide

/-- Claim C7 (amended): every summary satisfies the percentage equations, the
equivalence of allSupported with supportedCount = totalCount holds for every
summary produced by a non-faulting test, and the faulted summary instead has
allSupported = false with both counts zero. -/
theorem testDiacritical_summary_spec (probe : Except String (String → Nat)) :
    ((testDiacriticalCharacters probe).totalCount ≠ 0 →
      (testDiacriticalCharacters probe).percentageSupported
        = ((testDiacriticalCharacters probe).supportedCount : ℚ)
            / ((testDiacriticalCharacters probe).totalCount : ℚ) * 100) ∧
    ((testDiacriticalCharacters probe).totalCount = 0 →
      (testDiacriticalCharacters probe).percentageSupported = 0) ∧
    (∀ w, probe = .ok w →
      ((testDiacriticalCharacters probe).allSupported = true ↔
        (testDiacriticalCharacters probe).supportedCount
          = (testDiacriticalCharacters probe).totalCount)) ∧
    (∀ m, probe = .error m →
      (testDiacriticalCharacters probe).allSupported = false ∧
      (testDiacriticalCharacters probe).supportedCount = 0 ∧
      (testDiacriticalCharacters probe).totalCount = 0) := by
  cases probe with
  | error m =>
      refine ⟨fun h => absurd rfl h, fun _ => rfl, fun w hw => ?_,
        fun m2 _ => ⟨rfl, rfl, rfl⟩⟩
      cases hw
  | ok w =>
      refine ⟨fun _ => rfl, fun h => ?_, fun w2 _ => ?_, fun m hm => by cases hm⟩
      · have h10 : (testDiacriticalCharacters (.ok w)).totalCount = 10 := rfl
        omega
      · show ((((allCharacters.map (fun c => (c, decide (w c > 10)))).filter
            (fun r => r.2)).length == allCharacters.length) = true ↔ _)
        exact beq_iff_eq

/-- Witness for claim C7 at a concrete non-faulting probe on which every
character is wide: all ten characters count as supported. -/
theorem testDiacritical_summary_spec_witness :
    (testDiacriticalCharacters (.ok wideGlyphs)).percentageSupported
      = ((testDiacriticalCharacters (.ok wideGlyphs)).supportedCount : ℚ)
          / ((testDiacriticalCharacters (.ok wideGlyphs)).totalCount : ℚ) * 100 ∧
    (testDiacriticalCharacters (.ok wideGlyphs)).allSupported = true :=
  ⟨(testDiacritical_summary_spec (.ok wideGlyphs)).1 (by decide),
   ((testDiacritical_summary_spec (.ok wideGlyphs)).2.2.1 wideGlyphs rfl).mpr (by decide)⟩

theorem analyzeBody_fst_ok (pixelThreshold : Nat) (fontFamily : String)
    (o : PageOracle) (r : FontAnalysisResult)
    (h : (analyzeBody pixelThreshold fontFamily o).1 = .ok r) :
    ∃ oken ap ph, o.okinaShot = .ok oken ∧ o.apostropheShot = .ok ap ∧
      o.phraseShot = .ok ph ∧
      r = successResult pixelThreshold fontFamily oken ap
            (testDiacriticalCharacters o.charWidth) ph := by
  unfold analyzeBody at h
  cases h1 : o.setContent with
  | error m => rw [h1] at h; simp at h
  | ok u1 =>
    rw [h1] at h
    cases h2 : o.waitTimeout with
    | error m => rw [h2] at h; simp at h
    | ok u2 =>
      rw [h2] at h
      cases h3 : o.okinaShot with
      | error m => rw [h3] at h; simp at h
      | ok oken =>
        rw [h3] at h
        cases h4 : o.apostropheShot with
        | error m => rw [h4] at h; simp at h
        | ok ap =>
          rw [h4] at h
          cases h5 : o.phraseShot with
          | error m => rw [h5] at h; simp at h
          | ok ph =>
            rw [h5] at h
            simp at h
            exact ⟨oken, ap, ph, rfl, rfl, rfl, h.symm⟩

theorem analyzeOutcome_of_body_error (pixelThreshold : Nat) (fontFamily : String)
    (o : PageOracle) (m : String)
    (h : (analyzeBody pixelThreshold fontFamily o).1 = .error m) :
    analyzeOutcome pixelThreshold fontFamily o = errorResult fontFamily m := by
  unfold analyzeOutcome
  rw [h]

theorem analyzeOutcome_of_body_ok (pixelThreshold : Nat) (fontFamily : String)
    (o : PageOracle) (r : FontAnalysisResult)
    (h : (analyzeBody pixelThreshold fontFamily o).1 = .ok r) :
    analyzeOutcome pixelThreshold fontFamily o = r := by
  unfold analyzeOutcome
  rw [h]

theorem analyzeFontCharacters_fst (pixelThreshold : Nat) (fontFamily : String)
    (o : PageOracle) (h : o.newPage = .ok ()) :
    (analyzeFontCharacters pixelThreshold fontFamily o).1
      = .ok (analyzeOutcome pixelThreshold fontFamily o) := by
  unfold analyzeFontCharacters
  rw [h]

/-- Claim C2: for every analysis that completes without an internal fault
(the returned record carries no error), autoApproved holds exactly when the
pixel difference score strictly exceeds the threshold and all diacriticals
are supported, and hasVisualDistinction holds exactly when the score strictly
exceeds the threshold. -/
theorem autoApproval_spec (pixelThreshold : Nat) (fontFamily : String)
    (o : PageOracle) (r : FontAnalysisResult) (d : Nat)
    (s : DiacriticalSupportSummary)
    (hr : (analyzeFontCharacters pixelThreshold fontFamily o).1 = .ok r)
    (herr : r.error = none)
    (hd : r.okenVsApostropheDifference = some d)
    (hs : r.diacriticalSupport = some s) :
    (r.autoApproved = true ↔ (d > pixelThreshold ∧ s.allSupported = true)) ∧
    (r.hasVisualDistinction = some true ↔ d > pixelThreshold) := by
  unfold analyzeFontCharacters at hr
  cases hnp : o.newPage with
  | error m => rw [hnp] at hr; simp at hr
  | ok u =>
    rw [hnp] at hr
    simp only [Except.ok.injEq] at hr
    cases hb : (analyzeBody pixelThreshold fontFamily o).1 with
    | error m =>
        rw [analyzeOutcome_of_body_error _ _ _ _ hb] at hr
        rw [← hr] at herr
        simp [errorResult] at herr
    | ok r0 =>
        rw [analyzeOutcome_of_body_ok _ _ _ _ hb] at hr
        obtain ⟨oken, ap, ph, _, _, _, hr0⟩ := analyzeBody_fst_ok _ _ _ _ hb
        subst hr
        subst hr0
        simp only [successResult, Option.some.injEq] at hd hs
        subst hd
        subst hs
        constructor
        · simp [successResult, Bool.and_eq_true, decide_eq_true_iff]
        · simp [successResult]

/-- Witness for claim C2 at the all-success oracle: score 60 with threshold
50 and full diacritical support yields auto-approval. -/
theorem autoApproval_spec_witness :
    (analyzeOutcome 50 "Roboto" okOracle).autoApproved = true := by
  have h := autoApproval_spec 50 "Roboto" okOracle
    (analyzeOutcome 50 "Roboto" okOracle)
    (compareImages (List.replicate 61 1) [1])
    (testDiacriticalCharacters (.ok wideGlyphs))
    (analyzeFontCharacters_fst 50 "Roboto" okOracle rfl)
    rfl rfl rfl
  exact h.1.mpr (by decide)

theorem close_not_mem_body (pixelThreshold : Nat) (fontFamily : String)
    (o : PageOracle) :
    PageEvent.close ∉ (analyzeBody pixelThreshold fontFamily o).2 := by
  unfold analyzeBody
  cases o.setContent with
  | error m => simp
  | ok u1 =>
    cases o.waitTimeout with
    | error m => simp
    | ok u2 =>
      cases o.okinaShot with
      | error m => simp
      | ok oken =>
        cases o.apostropheShot with
        | error m => simp
        | ok ap =>
          cases o.phraseShot with
          | error m => simp
          | ok ph => simp

/-- Claim C5: whenever the page for a font is actually acquired (newPage
succeeds), the analysis returns a value rather than propagating a fault, and
its event trace ends with exactly one close event, i.e. the page is closed
on every exit path before the analysis returns. -/
theorem page_close_on_every_path (pixelThreshold : Nat) (fontFamily : String)
    (o : PageOracle) (h : o.newPage = .ok ()) :
    (∃ r, (analyzeFontCharacters pixelThreshold fontFamily o).1 = .ok r) ∧
    ((analyzeFontCharacters pixelThreshold fontFamily o).2).getLast?
      = some PageEvent.close ∧
    ((analyzeFontCharacters pixelThreshold fontFamily o).2).count
      PageEvent.close = 1 := by
  unfold analyzeFontCharacters
  rw [h]
  refine ⟨⟨_, rfl⟩, ?_, ?_⟩
  · show (PageEvent.newPage
        :: ((analyzeBody pixelThreshold fontFamily o).2 ++ [PageEvent.close])).getLast?
      = some PageEvent.close
    rw [← List.cons_append, List.getLast?_concat]
  · have hnm := close_not_mem_body pixelThreshold fontFamily o
    show (PageEvent.newPage
        :: ((analyzeBody pixelThreshold fontFamily o).2 ++ [PageEvent.close])).count
      PageEvent.close = 1
    rw [List.count_cons, List.count_append, List.count_eq_zero.mpr hnm]
    decide

/-- Witness for claim C5: the close event is still final when the content
load faults after the page opened. -/
theorem page_close_on_every_path_witness :
    ((analyzeFontCharacters 50 "Roboto" faultOracle).2).getLast?
      = some PageEvent.close :=
  (page_close_on_every_path 50 "Roboto" faultOracle rfl).2.1

theorem scanFontBatchAux_ok (pixelThreshold : Nat) (env : Nat → PageOracle)
    (now lbl : String) (hnp : ∀ i, (env i).newPage = .ok ())
    (fonts : List FontDescriptor) :
    ∀ start : Nat,
      scanFontBatchAux pixelThreshold env now lbl fonts start
        = .ok (normalResults pixelThreshold env now lbl fonts start) := by
  induction fonts with
  | nil => intro start; rfl
  | cons f fs ih =>
      intro start
      unfold scanFontBatchAux normalResults
      rw [analyzeFontCharacters_fst pixelThreshold f.family (env start) (hnp start),
        ih (start + 1)]

theorem normalResults_length (pixelThreshold : Nat) (env : Nat → PageOracle)
    (now lbl : String) (fonts : List FontDescriptor) :
    ∀ start : Nat,
      (normalResults pixelThreshold env now lbl fonts start).length = fonts.length := by
  induction fonts with
  | nil => intro start; rfl
  | cons f fs ih =>
      intro start
      unfold normalResults
      rw [List.length_cons, ih (start + 1), List.length_cons]

theorem normalResults_getElem? (pixelThreshold : Nat) (env : Nat → PageOracle)
    (now lbl : String) (fonts : List FontDescriptor) :
    ∀ start i : Nat,
      (normalResults pixelThreshold env now lbl fonts start)[i]?
        = (fonts[i]?).map (fun f =>
            { analysis := analyzeOutcome pixelThreshold f.family (env (start + i))
              googleFontData := f
              scannedAt := now
              scanBatch := lbl }) := by
  induction fonts with
  | nil => intro start i; simp [normalResults]
  | cons f fs ih =>
      intro start i
      cases i with
      | zero => simp [normalResults]
      | succ i =>
          unfold normalResults
          rw [List.getElem?_cons_succ, List.getElem?_cons_succ, ih (start + 1) i]
          have harith : start + 1 + i = start + (i + 1) := by omega
          rw [harith]

/-- Claim C3: in a batch whose pages all open, if the guarded analysis body of
exactly one font faults while every other font's analysis succeeds, the batch
still returns one result per font in catalog order; the faulted font's record
carries only the family and the error with autoApproved false (all other
analysis fields absent), and every other font's record carries no error.
A newPage failure is not such a fault: it is an engine-level failure that the
source propagates out of the loop (and section 7 of the specification classes
it as fatal to the run). -/
theorem scanFontBatch_single_fault (pixelThreshold : Nat) (env : Nat → PageOracle)
    (now lbl : String) (fonts : List FontDescriptor) (j : Nat) (m : String)
    (hnp : ∀ i, (env i).newPage = .ok ())
    (hj : j < fonts.length)
    (hm : (analyzeBody pixelThreshold (fonts.get ⟨j, hj⟩).family (env j)).1 = .error m)
    (hok : ∀ i (hi : i < fonts.length), i ≠ j →
      ∃ r, (analyzeBody pixelThreshold (fonts.get ⟨i, hi⟩).family (env i)).1 = .ok r) :
    ∃ rs, scanFontBatch pixelThreshold env now lbl fonts = .ok rs ∧
      rs.length = fonts.length ∧
      (∀ i (hi : i < fonts.length), ∃ r, rs[i]? = some r ∧
        r.googleFontData = fonts.get ⟨i, hi⟩ ∧ r.scannedAt = now ∧ r.scanBatch = lbl) ∧
      (∃ r, rs[j]? = some r ∧
        r.analysis.fontFamily = (fonts.get ⟨j, hj⟩).family ∧
        r.analysis.error = some m ∧
        r.analysis.autoApproved = false ∧
        r.analysis.okenVsApostropheDifference = none ∧
        r.analysis.hasVisualDistinction = none ∧
        r.analysis.diacriticalSupport = none ∧
        r.analysis.phrasePreview = none) ∧
      (∀ i (hi : i < fonts.length), i ≠ j →
        ∃ r, rs[i]? = some r ∧ r.analysis.error = none) := by
  have hget : ∀ i (hi : i < fonts.length),
      (normalResults pixelThreshold env now lbl fonts 0)[i]? = some
        { analysis := analyzeOutcome pixelThreshold (fonts.get ⟨i, hi⟩).family (env i)
          googleFontData := fonts.get ⟨i, hi⟩
          scannedAt := now
          scanBatch := lbl } := by
    intro i hi
    rw [normalResults_getElem?, List.getElem?_eq_getElem hi]
    simp [List.get_eq_getElem]
  refine ⟨normalResults pixelThreshold env now lbl fonts 0,
    scanFontBatchAux_ok pixelThreshold env now lbl hnp fonts 0,
    normalResults_length pixelThreshold env now lbl fonts 0, ?_, ?_, ?_⟩
  · intro i hi
    exact ⟨_, hget i hi, rfl, rfl, rfl⟩
  · have he := analyzeOutcome_of_body_error pixelThreshold
      ((fonts.get ⟨j, hj⟩).family) (env j) m hm
    refine ⟨_, hget j hj, ?_, ?_, ?_, ?_, ?_, ?_, ?_⟩ <;> rw [he] <;> rfl
  · intro i hi hne
    obtain ⟨r0, hb⟩ := hok i hi hne
    have hoc := analyzeOutcome_of_body_ok pixelThreshold
      ((fonts.get ⟨i, hi⟩).family) (env i) r0 hb
    obtain ⟨oken, ap, ph, _, _, _, hr0⟩ := analyzeBody_fst_ok _ _ _ _ hb
    subst hr0
    refine ⟨_, hget i hi, ?_⟩
    rw [hoc]
    rfl

/-- Witness for claim C3: a two-font batch whose first analysis body faults
still yields two results, the first errored and unapproved, the second
error-free. -/
theorem scanFontBatch_single_fault_witness :
    ∃ rs, scanFontBatch 50 envW "now" "0-50" [fontA, fontB] = .ok rs ∧
      rs.length = 2 ∧
      (∃ r, rs[0]? = some r ∧ r.analysis.error = some "boom" ∧
        r.analysis.autoApproved = false) ∧
      (∃ r, rs[1]? = some r ∧ r.analysis.error = none) := by
  obtain ⟨rs, h1, h2, h3, ⟨r, hr, hfam, herr, hauto, hrest⟩, h5⟩ :=
    scanFontBatch_single_fault 50 envW "now" "0-50" [fontA, fontB] 0 "boom"
      (by
        intro i
        unfold envW
        split <;> rfl)
      (by decide)
      rfl
      (by
        intro i hi hne
        have h2 : i < 2 := hi
        interval_cases i
        · exact absurd rfl hne
        · exact ⟨_, rfl⟩)
  obtain ⟨r1, hr1, herr1⟩ := h5 1 (by decide) (by decide)
  exact ⟨rs, h1, h2.trans rfl, ⟨r, hr, herr, hauto⟩, ⟨r1, hr1, herr1⟩⟩

/-- Claim C4: requesting a new scan batch while some batch record has status
running (the only one running, per the system invariant) is rejected with the
conflict response carrying that batch's identifier, and the database state is
returned unchanged: no new ScanBatch record is created. -/
theorem startScan_conflict (st : DBState) (batchSize offset : Nat)
    (scanType : String) (now : Nat) (b : ScanBatch)
    (hb : b ∈ st.batches) (hrun : b.status = "running")
    (huniq : ∀ b2 ∈ st.batches, b2.status = "running" → b2 = b) :
    (startScan st batchSize offset scanType now).1 = .conflict b.id ∧
    (startScan st batchSize offset scanType now).2 = st := by
  have hfind : st.batches.find? (fun x => x.status == "running") = some b := by
    rcases hf : st.batches.find? (fun x => x.status == "running") with _ | x
    · exfalso
      have hnone := List.find?_eq_none.mp hf b hb
      simp [hrun] at hnone
    · have hxmem := List.mem_of_find?_eq_some hf
      have hxpred := List.find?_some hf
      have hxrun : x.status = "running" := by simpa using hxpred
      rw [← huniq x hxmem hxrun]
      exact hf
  unfold startScan
  rw [hfind]
  exact ⟨rfl, rfl⟩

/-- Witness for claim C4: with one running batch of id 7 in the table, a new
manual scan request is rejected with conflict 7 and the state is unchanged. -/
theorem startScan_conflict_witness :
    (startScan runningState 50 0 "manual" 123).1 = .conflict 7 ∧
    (startScan runningState 50 0 "manual" 123).2 = runningState :=
  startScan_conflict runningState 50 0 "manual" 123 sampleRunningBatch
    (by simp [runningState])
    rfl
    (by
      intro b2 hmem hrun
      simpa [runningState] using hmem)

theorem insertLoop_eq (batchId : Nat) (results : List ScanResult) :
    insertLoop batchId results
      = ((results.filter (fun r => r.analysis.error.isNone)).map (mkFontRecord batchId),
         (results.filter (fun r => r.analysis.error.isNone)).length,
         (results.filter (fun r => r.analysis.error.isNone
            && r.analysis.autoApproved)).length) := by
  induction results with
  | nil => rfl
  | cons r rs ih =>
      unfold insertLoop
      cases h : r.analysis.error.isNone with
      | false => simp [h, ih, List.filter_cons]
      | true =>
          cases ha : r.analysis.autoApproved with
          | false => simp [h, ha, ih, List.filter_cons]
          | true => simp [h, ha, ih, List.filter_cons]

/-- Claim C6 counterexample: a one-font batch whose single analysis errored
still completes, but with fontsProcessed = 0 and no FontAnalysisResult record
written, although the batch contained one font: a record is not written for
every font, and fontsProcessed differs from the number of fonts. -/
theorem scanFontsAsync_counterexample :
    (scanFontsAsync stOne 1 99
        (scanFontBatch 50 envW "t" "0-50" [fontA])).fontRecords.length = 0 ∧
    (scanFontsAsync stOne 1 99
        (scanFontBatch 50 envW "t" "0-50" [fontA])).batches.map
        (fun b => b.status) = ["completed"] ∧
    (scanFontsAsync stOne 1 99
        (scanFontBatch 50 envW "t" "0-50" [fontA])).batches.map
        (fun b => b.fontsProcessed) = [some 0] ∧
    [fontA].length = 1 ∧ (0 : Nat) ≠ 1 :=
  ⟨rfl, rfl, rfl, rfl, by decide⟩

/-- Claim C6 (amended): when the run completes, one FontAnalysisResult record
is written per error-free result, in order and with the catalog metadata
copied, and the batch row transitions to completed with fontsProcessed the
number of error-free results and fontsApproved the number of auto-approved
ones among them (errored results are neither written nor counted). -/
theorem scanFontsAsync_completed_spec (st : DBState) (batchId now : Nat)
    (results : List ScanResult) :
    (scanFontsAsync st batchId now (.ok results)).fontRecords
      = st.fontRecords
        ++ (results.filter (fun r => r.analysis.error.isNone)).map
            (mkFontRecord batchId) ∧
    (∀ r ∈ results, r.analysis.error = none →
      mkFontRecord batchId r
        ∈ (scanFontsAsync st batchId now (.ok results)).fontRecords) ∧
    (∀ b ∈ st.batches, b.id = batchId →
      { b with
        status := "completed"
        completedAt := some now
        fontsProcessed := some (results.filter
          (fun r => r.analysis.error.isNone)).length
        fontsApproved := some (results.filter
          (fun r => r.analysis.error.isNone && r.analysis.autoApproved)).length
        processingNotes := some ("Processed "
          ++ toString (results.filter (fun r => r.analysis.error.isNone)).length
          ++ " fonts, "
          ++ toString (results.filter (fun r => r.analysis.error.isNone
              && r.analysis.autoApproved)).length
          ++ " auto-approved") }
        ∈ (scanFontsAsync st batchId now (.ok results)).batches) := by
  have h1 : (scanFontsAsync st batchId now (.ok results)).fontRecords
      = st.fontRecords
        ++ (results.filter (fun r => r.analysis.error.isNone)).map
            (mkFontRecord batchId) := by
    show st.fontRecords ++ (insertLoop batchId results).1 = _
    rw [insertLoop_eq]
  have h2 : (scanFontsAsync st batchId now (.ok results)).batches
      = completeBatch batchId now
          (results.filter (fun r => r.analysis.error.isNone)).length
          (results.filter (fun r => r.analysis.error.isNone
            && r.analysis.autoApproved)).length
          st.batches := by
    show completeBatch batchId now (insertLoop batchId results).2.1
        (insertLoop batchId results).2.2 st.batches = _
    rw [insertLoop_eq]
  refine ⟨h1, ?_, ?_⟩
  · intro r hr hrerr
    rw [h1]
    refine List.mem_append_right _ (List.mem_map_of_mem _ ?_)
    exact List.mem_filter.mpr ⟨hr, by rw [hrerr]; rfl⟩
  · intro b hbmem hbid
    rw [h2]
    unfold completeBatch
    refine List.mem_map.mpr ⟨b, hbmem, ?_⟩
    rw [if_pos (by simp [hbid])]

/-- Witness for claim C6 at a concrete state and result list holding one
errored and one successful result: the successful one is written. -/
theorem scanFontsAsync_completed_spec_witness :
    mkFontRecord 1 okScanResult
      ∈ (scanFontsAsync stOne 1 99 (.ok [errScanResult, okScanResult])).fontRecords := by
  have h := scanFontsAsync_completed_spec stOne 1 99 [errScanResult, okScanResult]
  exact h.2.1 okScanResult (List.mem_cons_of_mem _ (List.mem_cons_self _ _)) rfl

/-- Claim C8 (evidence of the code bug): the scheduled incremental-scan
trigger never changes the database state — in particular it creates no batch
even when fourteen or more days have elapsed and no batch is running —
because the batch-starting branch is an unimplemented stub in the source. -/
theorem cronCallback_no_op (now : Nat) (st : DBState) :
    cronCallback now st = st := by
  unfold cronCallback
  split
  · cases st.batches.find? (fun b => b.status == "running") <;> rfl
  · rfl

/-- Claim C9 counterexample: with limit 0 (a falsy number in the source
truthiness check) the function returns the whole catalog rather than the
empty window that dropping 0 and taking 0 would give. -/
theorem fetchGoogleFonts_zero_limit_counterexample :
    fetchGoogleFonts [fontA] 0 (some 0) ≠ ([fontA].drop 0).take 0 := by
  decide

/-- Claim C9 (amended): for every offset and every nonzero limit the function
returns the contiguous window obtained by dropping offset elements and then
taking limit elements (offset applied before limit); when the limit is null
or zero it instead returns everything from offset on. -/
theorem fetchGoogleFonts_window (items : List FontDescriptor)
    (offset limit : Nat) :
    (limit ≠ 0 →
      fetchGoogleFonts items offset (some limit) = (items.drop offset).take limit) ∧
    fetchGoogleFonts items offset none = items.drop offset ∧
    fetchGoogleFonts items offset (some 0) = items.drop offset := by
  have hbase : (if 0 < offset then items.drop offset else items)
      = items.drop offset := by
    split
    · rfl
    · rename_i h
      have h0 : offset = 0 := by omega
      rw [h0, List.drop_zero]
  refine ⟨fun h => ?_, ?_, ?_⟩
  · show (if limit ≠ 0
        then (if 0 < offset then items.drop offset else items).take limit
        else (if 0 < offset then items.drop offset else items))
      = (items.drop offset).take limit
    rw [if_pos h, hbase]
  · exact hbase
  · show (if (0 : Nat) ≠ 0
        then (if 0 < offset then items.drop offset else items).take 0
        else (if 0 < offset then items.drop offset else items))
      = items.drop offset
    rw [if_neg (by omega), hbase]

/-- Witness for claim C9 at a two-element catalog with offset one and limit
one: the window is the second element alone. -/
theorem fetchGoogleFonts_window_witness :
    fetchGoogleFonts [fontA, fontB] 1 (some 1) = ([fontA, fontB].drop 1).take 1 :=
  (fetchGoogleFonts_window [fontA, fontB] 1 1).1 (by decide)
